import Mathlib

/-!
Shallow embedding of the SysY language-tooling core (semantic validators,
diagnostic enrichment, and the quick-fix engine) together with theorems
settling the specification claims.  Each definition is transcribed from the
TypeScript/JavaScript source file named in its doc comment.
-/

set_option maxRecDepth 4000

namespace SysY

/-! ## String helpers (JS primitives used by the source) -/

/-- Does `needle` occur at the very start of `hay`?  (Char-list form of the
prefix test used to implement JS `String.prototype.includes`.) -/
def leadsWith : List Char → List Char → Bool
  | [], _ => true
  | _ :: _, [] => false
  | a :: as, b :: bs => a == b && leadsWith as bs

/-- JS `hay.includes(pat)` on char lists: `pat` occurs somewhere in `hay`. -/
def charsIncludes (needle : List Char) : List Char → Bool
  | [] => leadsWith needle []
  | hay@(_ :: t) => leadsWith needle hay || charsIncludes needle t

/-- JS `s.includes(pat)`. -/
def strIncludes (s pat : String) : Bool :=
  charsIncludes pat.toList s.toList

/-- Numeric value of a list of decimal digit characters. -/
def digitsVal (ds : List Char) : Nat :=
  ds.foldl (fun a c => a * 10 + (c.toNat - '0'.toNat)) 0

/-- JS `parseInt(s, 10)`:
skip leading whitespace, read a maximal run of decimal digits; `none`
models the `NaN` result when no digit is found.  (The sign prefix of full
`parseInt` is irrelevant to the size literals this program parses.) -/
def jsParseInt (s : String) : Option Nat :=
  let cs := s.toList.dropWhile (·.isWhitespace)
  let ds := cs.takeWhile (·.isDigit)
  if ds.isEmpty then none else some (digitsVal ds)

/-- JS `s.split(sep)` for a single-character separator, on char lists. -/
def splitOnCharList (sep : Char) : List Char → List (List Char)
  | [] => [[]]
  | c :: t =>
    let r := splitOnCharList sep t
    if c = sep then [] :: r
    else
      match r with
      | h :: t2 => (c :: h) :: t2
      | [] => [[c]]

/-- JS `s.split(sep)` for a single-character separator. -/
def strSplitOnChar (sep : Char) (s : String) : List String :=
  (splitOnCharList sep s.toList).map String.mk

/-! ## Diagnostic enrichment (`error-message-provider.ts`, embedded in
`src/src/language/main.ts` lines 249-445) -/

/-- Error category enum (`ErrorCategory` in `error-message-provider.ts`). -/
inductive ErrorCategory where
  | VARIABLE
  | FUNCTION
  | ARRAY
  | TYPE
  | CONTROL
  | OTHER
deriving DecidableEq, Repr

/-- Entry of the static error-detail table (`ErrorInfo`). -/
structure ErrorInfo where
  message : String
  suggestion : String
  category : ErrorCategory
deriving DecidableEq, Repr

/-- The static `ERROR_DETAILS` table, in source (insertion) order.  In the
TypeScript source the quoted keys are ordinary string-literal syntax, so no
runtime key retains its quote characters. -/
def ERROR_DETAILS : List (String × ErrorInfo) :=
  [ ("无法重新声明块范围变量",
     { message := "在同一个作用域中，每个变量名只能声明一次。请使用不同的变量名或在不同的作用域中声明。"
       suggestion := "使用不同的变量名或移除重复声明"
       category := ErrorCategory.VARIABLE }),
    ("使用了未定义的变量",
     { message := "尝试使用一个未在当前作用域中声明的变量。请确保在使用前先声明变量。"
       suggestion := "先声明变量再使用"
       category := ErrorCategory.VARIABLE }),
    ("未声明的变量",
     { message := "引用了一个在当前作用域中不存在的变量。变量必须在使用前声明。"
       suggestion := "声明该变量或检查变量名是否拼写错误"
       category := ErrorCategory.VARIABLE }),
    ("数组的初始化元素数量超过了数组大小",
     { message := "数组初始化时提供的元素数量不能超过数组声明的大小。请减少初始化元素的数量或增加数组大小。"
       suggestion := "增大数组声明大小或减少初始化元素"
       category := ErrorCategory.ARRAY }),
    ("调用了未定义的函数",
     { message := "尝试调用一个未声明的函数。请确保在调用前先定义该函数。"
       suggestion := "定义该函数或检查函数名是否拼写错误"
       category := ErrorCategory.FUNCTION }),
    ("函数名已经定义过",
     { message := "在同一个作用域中，每个函数名只能定义一次。请使用不同的函数名。"
       suggestion := "使用不同的函数名或移除重复定义"
       category := ErrorCategory.FUNCTION }),
    ("参数个数不匹配",
     { message := "函数调用时提供的参数数量与函数定义时的参数数量不匹配。请检查函数定义并提供正确数量的参数。"
       suggestion := "调整参数数量以匹配函数定义"
       category := ErrorCategory.FUNCTION }),
    ("非循环块中使用了 Stmtbreak 语句",
     { message := "break语句只能用在循环内部。请移除不在循环体内的break语句。"
       suggestion := "移除break语句或将其放在循环内"
       category := ErrorCategory.CONTROL }),
    ("非循环块中使用了 Stmtcontinue 语句",
     { message := "continue语句只能用在循环内部。请移除不在循环体内的continue语句。"
       suggestion := "移除continue语句或将其放在循环内"
       category := ErrorCategory.CONTROL }),
    ("有返回值的函数缺少 return 语句",
     { message := "有返回值类型的函数必须包含至少一个return语句。请添加带有适当返回值的return语句。"
       suggestion := "添加带有适当返回值的return语句"
       category := ErrorCategory.FUNCTION }),
    ("有返回值的函数不应返回为空",
     { message := "有返回值的函数需要在return语句中提供一个值。请在return语句中添加适当的返回值。"
       suggestion := "在return语句中添加返回值"
       category := ErrorCategory.FUNCTION }),
    ("void 函数不应存在非空返回值",
     { message := "void类型的函数不应该有返回值。请移除return语句中的表达式。"
       suggestion := "移除return语句中的表达式或使用\x27return;\x27"
       category := ErrorCategory.FUNCTION }),
    ("不能将void类型变量参与运算或用于赋值",
     { message := "void类型的函数返回值不能用于赋值或参与运算。请使用有返回值的函数。"
       suggestion := "修改函数返回类型或不将结果用于赋值"
       category := ErrorCategory.TYPE }),
    ("类型不匹配",
     { message := "表达式的类型与预期的类型不匹配。请确保类型兼容或添加适当的类型转换。"
       suggestion := "修改表达式或添加类型转换"
       category := ErrorCategory.TYPE }),
    ("数组.*初始化元素数量超过了数组大小",
     { message := "数组初始化时提供的元素数量不能超过数组声明的大小。请减少初始化元素的数量或增加数组大小。"
       suggestion := "增大数组大小或减少初始化元素"
       category := ErrorCategory.ARRAY }) ]

/-- Token of the miniature regex language sufficient for the patterns in
`ERROR_DETAILS` (literal characters, the wildcard `.`, and `.*`). -/
inductive RegToken where
  | lit (c : Char)
  | anyChar
  | anyStar
deriving DecidableEq, Repr

/-- Characters that are regex metacharacters; a pattern using one outside the
supported forms makes `new RegExp` unrepresentable in this mini language and
is modelled as a construction failure. -/
def isRegexMeta (c : Char) : Bool :=
  c ∈ ['*', '(', ')', '[', ']', '\\', '+', '?', '^', '$', '|', '\x7b', '\x7d']

/-- Model of `new RegExp(pattern)`: compile the pattern string, failing (as
the JS constructor may throw) when the pattern uses unsupported syntax. -/
def compileRegex : List Char → Except Unit (List RegToken)
  | [] => .ok []
  | '.' :: '*' :: rest => (RegToken.anyStar :: ·) <$> compileRegex rest
  | '.' :: rest => (RegToken.anyChar :: ·) <$> compileRegex rest
  | c :: rest =>
    if isRegexMeta c then .error ()
    else (RegToken.lit c :: ·) <$> compileRegex rest

/-- Can the token list match some prefix of the char list? -/
def tokensMatch : List RegToken → List Char → Bool
  | [], _ => true
  | RegToken.lit _ :: _, [] => false
  | RegToken.lit c :: ts, x :: xs => c == x && tokensMatch ts xs
  | RegToken.anyChar :: _, [] => false
  | RegToken.anyChar :: ts, _ :: xs => tokensMatch ts xs
  | RegToken.anyStar :: ts, xs =>
    tokensMatch ts xs ||
      (match xs with
       | [] => false
       | _ :: t => tokensMatch (RegToken.anyStar :: ts) t)
termination_by ts xs => (ts.length, xs.length)

/-- JS `regex.test(s)`: the pattern matches at some position of `s`. -/
def regexTest (ts : List RegToken) : List Char → Bool
  | [] => tokensMatch ts []
  | s@(_ :: t) => tokensMatch ts s || regexTest ts t

/-- Guard `errorPattern.startsWith(String.fromCharCode(34))` from the regex
pass: does the key begin with a double-quote character? -/
def keyStartsWithQuote (s : String) : Bool :=
  s.toList.head? == some '"'

/-- Guard `errorPattern.endsWith(...)`: does the key end with a double-quote
character? -/
def keyEndsWithQuote (s : String) : Bool :=
  s.toList.getLast? == some '"'

/-- JS `s.substring(1, s.length - 1)`: strip the first and last character. -/
def stripOuterChars (s : String) : String :=
  String.mk (s.toList.drop 1 |>.dropLast)

/-- First pass of `getEnhancedMessage` / `getErrorCategory`: the first table
entry whose key is contained in the message (`message.includes(pattern)`). -/
def findSubstringEntry (m : String) : List (String × ErrorInfo) → Option ErrorInfo
  | [] => none
  | (k, i) :: rest => if strIncludes m k then some i else findSubstringEntry m rest

/-- Second pass: the first key that starts and ends with a double quote,
compiled (possibly throwing) as a regex of its inner text and tested against
the message. -/
def findRegexEntry (m : String) : List (String × ErrorInfo) → Except Unit (Option ErrorInfo)
  | [] => .ok none
  | (k, i) :: rest =>
    if keyStartsWithQuote k && keyEndsWithQuote k then do
      let ts ← compileRegex (stripOuterChars k).toList
      if regexTest ts m.toList then pure (some i) else findRegexEntry m rest
    else findRegexEntry m rest

/-- Concatenation performed on a table hit:
message + explanation + suggestion (`getEnhancedMessage`, line 382). -/
def enrichFormat (m : String) (i : ErrorInfo) : String :=
  m ++ "\n\n详细信息：" ++ i.message ++ "\n建议：" ++ i.suggestion

/-- `ErrorMessageProvider.getEnhancedMessage` (`main.ts` lines 373-401),
in the JS exception monad: empty message short-circuits to 未知错误, then the
exact-substring pass, then the regex pass, else the raw message. -/
def getEnhancedMessageE (m : String) : Except Unit String :=
  if m = "" then .ok "未知错误"
  else
    match findSubstringEntry m ERROR_DETAILS with
    | some i => .ok (enrichFormat m i)
    | none => do
      match (← findRegexEntry m ERROR_DETAILS) with
      | some i => pure (enrichFormat m i)
      | none => pure m

/-- `ErrorMessageProvider.getSafeEnhancedMessage` (`main.ts` lines 406-413):
the try/catch wrapper; a caught failure yields `message || "未知错误"`. -/
def getSafeEnhancedMessage (m : String) : String :=
  match getEnhancedMessageE m with
  | .ok r => r
  | .error _ => if m = "" then "未知错误" else m

/-- Generic form of the `getSafeEnhancedMessage` try/catch around an
arbitrary inner enrichment function. -/
def safeWrap (inner : String → Except Unit String) (m : String) : String :=
  match inner m with
  | .ok r => r
  | .error _ => if m = "" then "未知错误" else m

/-- `ErrorMessageProvider.getErrorCategory` (`main.ts` lines 420-444): same
two passes; empty message returns `undefined`; no hit defaults to OTHER. -/
def getErrorCategoryE (m : String) : Except Unit (Option ErrorCategory) :=
  if m = "" then .ok none
  else
    match findSubstringEntry m ERROR_DETAILS with
    | some i => .ok (some i.category)
    | none => do
      match (← findRegexEntry m ERROR_DETAILS) with
      | some i => pure (some i.category)
      | none => pure (some ErrorCategory.OTHER)

/-! ## Diagnostics -/

/-- Stable error codes (`ERROR_CODES` in `quickfix-provider.ts`). -/
def UNDEFINED_VARIABLE : String := "undefined-variable"

/-- Error code for a duplicate declaration. -/
def DUPLICATE_DECLARATION : String := "duplicate-declaration"

/-- Error code for an initializer longer than the declared array size. -/
def ARRAY_SIZE_OVERFLOW : String := "array-size-overflow"

/-- Error code for a call to an unresolved function. -/
def UNDEFINED_FUNCTION : String := "undefined-function"

/-- Error code for a duplicate top-level function name. -/
def DUPLICATE_FUNCTION : String := "duplicate-function"

/-- Error code for an arity mismatch at a call site. -/
def PARAMETER_MISMATCH : String := "parameter-mismatch"

/-- Error code for break/continue outside a loop. -/
def INVALID_BREAK_CONTINUE : String := "invalid-break-continue"

/-- Error code for a missing return in a non-void function. -/
def MISSING_RETURN : String := "missing-return"

/-- Error code for a bare return in a non-void function. -/
def EMPTY_RETURN : String := "empty-return"

/-- Error code for a valued return in a void function. -/
def VOID_RETURN_VALUE : String := "void-return-value"

/-- Structured payload attached to a diagnostic (the `data` field passed to
`accept`); absent fields are `none`. -/
structure DiagData where
  explanation : Option String := none
  suggestion : Option String := none
  category : Option ErrorCategory := none
  variableName : Option String := none
  functionName : Option String := none
  arrayName : Option String := none
  returnType : Option String := none
  expectedCount : Option Nat := none
  actualCount : Option Nat := none
  declaredSize : Option Nat := none
  actualSize : Option Nat := none
deriving DecidableEq, Repr

/-- Zero-based line/character position (LSP shape). -/
structure Pos where
  line : Nat
  character : Nat
deriving DecidableEq, Repr

/-- Source range; `stop` is the LSP `end` position. -/
structure RangeRec where
  start : Pos
  stop : Pos
deriving DecidableEq, Repr

/-- A diagnostic as emitted through the `accept` callback / received by the
quick-fix engine.  Validators leave `range` as `none`: the concrete range is
attached from the CST by the external framework, outside the modelled code. -/
structure Diag where
  severity : String
  message : String
  code : Option String := none
  range : Option RangeRec := none
  data : Option DiagData := none
deriving DecidableEq, Repr

/-! ## AST model

Node shapes are taken from how the validators access the generated AST:
a `Block` may lack its `blockItems` array, a `BlockItem` may hold a
statement or a declaration, and the statement kinds are distinguished by
their `$type` tag exactly as in `checkStatementsInBlock`. -/

mutual

/-- Statement node, tagged as in the source `switch (stmt.$type)`.
`sreturn`'s argument models `tobereturn` (`none` = bare `return;`);
`sother` models any other statement kind together with its optional
`blockItems` field used by the generic-recursion default case. -/
inductive Stmt where
  | sbreak
  | scontinue
  | swhile (whilestmt : Block)
  | selif (ifstmt : Block) (elsestmt : Option Block)
  | sreturn (tobereturn : Option Unit)
  | sother (blockItems : Block)

/-- `blockItem.blockStmt` is absent for declarations. -/
inductive BlockItem where
  | stmt (blockStmt : Stmt)
  | decl

/-- A block; `noItems` models a null block or one without `blockItems`. -/
inductive Block where
  | noItems
  | mk (blockItems : List BlockItem)

end

/-! ## Declaration/scope validator (`DeclValidator`, `src/unnamed/part_002`) -/

/-- A named definition inside one declaration group (`Decl.defs` entry). -/
structure NamedDef where
  name : String
deriving DecidableEq, Repr

/-- A declaration group (`Decl`). -/
structure Decl where
  defs : List NamedDef
deriving DecidableEq, Repr

/-- Diagnostic produced for a duplicate name in a declaration group. -/
def dupDeclDiag (n : String) : Diag :=
  { severity := "error"
    message := getSafeEnhancedMessage ("无法重新声明块范围变量 \x27" ++ n ++ "\x27。")
    code := some DUPLICATE_DECLARATION
    data := some { explanation := some "同一作用域内不能重复声明同名变量"
                   suggestion := some "使用不同的变量名或移除重复的声明"
                   category := some ErrorCategory.VARIABLE
                   variableName := some n } }

/-- Loop of `DeclValidator.checkUniqueDef` with the `reported` seen-set made
explicit (a list used only through membership, mirroring the JS `Set`). -/
def checkUniqueDefGo (reported : List String) : List NamedDef → List Diag
  | [] => []
  | d :: rest =>
    (if reported.contains d.name then [dupDeclDiag d.name] else []) ++
      checkUniqueDefGo (d.name :: reported) rest

/-- `DeclValidator.checkUniqueDef`: the seen-set is allocated fresh at every
call (`const reported = new Set()`). -/
def checkUniqueDef (constDecl : Decl) : List Diag :=
  checkUniqueDefGo [] constDecl.defs

/-- An initializer node (`InitVal`); `manyInit` is its element list, of which
only the length is observed. -/
structure InitNode where
  manyInit : List Unit
deriving DecidableEq, Repr

/-- A variable definition node (`VarDef`) as accessed by `hoverTipsArray`:
`index` holds the `value` texts of the dimension-size expressions and `Init`
the initializer nodes. -/
structure VarDefNode where
  name : String
  index : List String
  Init : List InitNode
deriving DecidableEq, Repr

/-- Diagnostic produced by `hoverTipsArray` for an oversized initializer. -/
def arrayOverflowDiag (n : String) (declared actual : Nat) : Diag :=
  { severity := "error"
    message := getSafeEnhancedMessage ("数组 " ++ n ++ " 的初始化元素数量超过了数组大小。")
    code := some ARRAY_SIZE_OVERFLOW
    data := some { explanation := some "数组元素数量超过了声明的大小"
                   suggestion := some "增大数组大小或减少初始化元素的数量"
                   category := some ErrorCategory.ARRAY
                   arrayName := some n
                   declaredSize := some declared
                   actualSize := some actual } }

/-- `DeclValidator.hoverTipsArray` (`part_002` lines 66-92), in the JS
exception monad: reading `arr.Init[0].manyInit` throws when the declaration
has no initializer; only the first dimension (`arr.index[0]`) is consulted;
`parseInt` yielding NaN makes the `>` comparison false. -/
def hoverTipsArrayE (arr : VarDefNode) : Except Unit (List Diag) :=
  match arr.index.head? with
  | none => .ok []
  | some len =>
    match arr.Init.head? with
    | none => .error ()
    | some init0 =>
      let overflow : Bool :=
        match jsParseInt len with
        | some lengthInt => decide (init0.manyInit.length > lengthInt)
        | none => false
      .ok (if overflow then
             [arrayOverflowDiag arr.name ((jsParseInt len).getD 0) init0.manyInit.length]
           else [])

/-! ## Function-contract validator (`FuncValidator`,
`src/static/example-loader.js` lines 407-750) -/

/-- Declared signature a resolved function reference points to
(`funcname.ref`); `funcFparam` entries are observed only through count. -/
structure FuncSig where
  funcFparam : List String
  functype : String
deriving DecidableEq, Repr

/-- A call site carrying both the `FunctionCall` view (for
`checkFunctionDeclared`) and the `FuncRParams` view (for the arity check);
the two nodes of one call share the same `funcname` reference slot. -/
structure CallSite where
  funcnameRef : Option FuncSig
  refText : String
  funcRparams : List String
deriving DecidableEq, Repr

/-- Diagnostic for a call to an unresolved function. -/
def undefinedFuncDiag (n : String) : Diag :=
  { severity := "error"
    message := getSafeEnhancedMessage ("调用了未定义的函数 \x27" ++ n ++ "\x27。")
    code := some UNDEFINED_FUNCTION
    data := some { explanation := some "函数在调用前需要先定义"
                   suggestion := some ("请先定义该函数，例如：\x27int " ++ n ++ "() \x7b return 0; \x7d\x27")
                   category := some ErrorCategory.FUNCTION
                   functionName := some n } }

/-- `FuncValidator.checkFunctionDeclared` (lines 451-474). -/
def checkFunctionDeclared (funcCall : CallSite) : List Diag :=
  match funcCall.funcnameRef with
  | some _ => []
  | none => [undefinedFuncDiag funcCall.refText]

/-- Diagnostic for an arity mismatch. -/
def paramMismatchDiag (n : String) (expected actual : Nat) : Diag :=
  { severity := "error"
    message := getSafeEnhancedMessage
      ("参数个数不匹配。预期 " ++ toString expected ++ " 个参数，但实际调用时传递了 " ++
        toString actual ++ " 个参数。")
    code := some PARAMETER_MISMATCH
    data := some { explanation := some "函数调用时参数数量必须与函数定义匹配"
                   suggestion := some (if actual > expected then "减少参数数量" else "增加缺少的参数")
                   category := some ErrorCategory.FUNCTION
                   functionName := some n
                   expectedCount := some expected
                   actualCount := some actual } }

/-- `FuncValidator.checkFunctionParameterMismatch` (lines 599-636): with an
unresolved reference the optional-chained `forEach` collects nothing, so the
declared count is 0. -/
def checkFunctionParameterMismatch (func : CallSite) : List Diag :=
  let declaredParamArray : List String :=
    match func.funcnameRef with
    | some sig => sig.funcFparam
    | none => []
  if declaredParamArray.length ≠ func.funcRparams.length then
    [paramMismatchDiag func.refText declaredParamArray.length func.funcRparams.length]
  else []

/-- A top-level function node (`FuncDef`). -/
structure FuncDefNode where
  name : String
  functype : String
  block : Block

/-- Diagnostic for break outside a loop. -/
def breakDiag : Diag :=
  { severity := "error"
    message := getSafeEnhancedMessage "\x27break\x27 语句只能在循环中使用。"
    code := some INVALID_BREAK_CONTINUE
    data := some { explanation := some "break语句只能出现在while循环中"
                   suggestion := some "移除break语句或将其放在循环内"
                   category := some ErrorCategory.CONTROL } }

/-- Diagnostic for continue outside a loop. -/
def continueDiag : Diag :=
  { severity := "error"
    message := getSafeEnhancedMessage "\x27continue\x27 语句只能在循环中使用。"
    code := some INVALID_BREAK_CONTINUE
    data := some { explanation := some "continue语句只能出现在while循环中"
                   suggestion := some "移除continue语句或将其放在循环内"
                   category := some ErrorCategory.CONTROL } }

mutual

/-- `FuncValidator.checkStatementsInBlock` (lines 521-594): recursive walk
with the `inLoop` flag; a while-body recurses with the flag true, if/else
branches recurse with the inherited flag, and the default case recurses into
a statement exposing `blockItems`. -/
def checkStatementsInBlock : Block → Bool → List Diag
  | Block.noItems, _ => []
  | Block.mk items, inLoop => checkBlockItems items inLoop

/-- Iteration over the `blockItems` of a block. -/
def checkBlockItems : List BlockItem → Bool → List Diag
  | [], _ => []
  | BlockItem.decl :: rest, inLoop => checkBlockItems rest inLoop
  | BlockItem.stmt s :: rest, inLoop => checkOneStmt s inLoop ++ checkBlockItems rest inLoop

/-- The `switch (stmt.$type)` body of `checkStatementsInBlock`. -/
def checkOneStmt : Stmt → Bool → List Diag
  | Stmt.sbreak, inLoop => if inLoop then [] else [breakDiag]
  | Stmt.scontinue, inLoop => if inLoop then [] else [continueDiag]
  | Stmt.swhile body, _ => checkStatementsInBlock body true
  | Stmt.selif ifstmt elsestmt, inLoop =>
    checkStatementsInBlock ifstmt inLoop ++
      (match elsestmt with
       | some b => checkStatementsInBlock b inLoop
       | none => [])
  | Stmt.sreturn _, _ => []
  | Stmt.sother nested, inLoop =>
    match nested with
    | Block.noItems => []
    | Block.mk items => checkBlockItems items inLoop

end

/-- `FuncValidator.checkBreakContinueInNonLoopBlocks` (lines 508-513): the
walk starts on the function body with `inLoop = false`. -/
def checkBreakContinueInNonLoopBlocks (funcDef : FuncDefNode) : List Diag :=
  checkStatementsInBlock funcDef.block false

/-- The `forEach` scan of `checkFunctionReturnType` over the top-level
`blockItems`: `none` models `hasReturn = false`; `some t` records the last
top-level return's `tobereturn` (itself `none` for a bare `return;`). -/
def scanTopReturns (items : List BlockItem) : Option (Option Unit) :=
  items.foldl
    (fun acc item =>
      match item with
      | BlockItem.stmt (Stmt.sreturn t) => some t
      | _ => acc)
    none

/-- Diagnostic for a missing return. -/
def missingReturnDiag (returnType fname : String) : Diag :=
  { severity := "error"
    message := getSafeEnhancedMessage ("有返回值: " ++ returnType ++ " 的函数缺少 return 语句。")
    code := some MISSING_RETURN
    data := some { explanation := some "有返回值的函数必须包含return语句"
                   suggestion := some ("添加 \x27return <" ++ returnType ++ "类型的值>;\x27 语句")
                   category := some ErrorCategory.FUNCTION
                   returnType := some returnType
                   functionName := some fname } }

/-- Diagnostic for a bare return in a non-void function. -/
def emptyReturnDiag (returnType fname : String) : Diag :=
  { severity := "error"
    message := getSafeEnhancedMessage ("有返回值: " ++ returnType ++ " 的函数不应返回为空。")
    code := some EMPTY_RETURN
    data := some { explanation := some "有返回值的函数必须在return语句中提供一个值"
                   suggestion := some ("将 \x27return;\x27 改为 \x27return <" ++ returnType ++ "类型的值>;\x27")
                   category := some ErrorCategory.FUNCTION
                   returnType := some returnType
                   functionName := some fname } }

/-- Diagnostic for a valued return in a void function. -/
def voidReturnValueDiag (fname : String) : Diag :=
  { severity := "error"
    message := getSafeEnhancedMessage "void 函数不应存在非空返回值。"
    code := some VOID_RETURN_VALUE
    data := some { explanation := some "void类型的函数不应该有返回值"
                   suggestion := some "移除return语句中的表达式或使用\x27return;\x27"
                   category := some ErrorCategory.FUNCTION
                   functionName := some fname } }

/-- The `hasReturn`/`actuallReturnType` state of `checkFunctionReturnType`
after the scan: only the function's immediate `blockItems` are inspected
for `Stmtreturn` (the last one wins). -/
def funcScan (func : FuncDefNode) : Option (Option Unit) :=
  match func.block with
  | Block.noItems => none
  | Block.mk items => scanTopReturns items

/-- `FuncValidator.checkFunctionReturnType` (lines 641-722), continued:
at most one of MISSING_RETURN / EMPTY_RETURN / VOID_RETURN_VALUE is
emitted, driven by the declared type and the scan result. -/
def checkFunctionReturnType (func : FuncDefNode) : List Diag :=
  let returnType := func.functype
  match funcScan func with
  | none =>
    if returnType ≠ "void" then [missingReturnDiag returnType func.name] else []
  | some lastRet =>
    if returnType ≠ "void" then
      match lastRet with
      | none => [emptyReturnDiag returnType func.name]
      | some _ => []
    else
      match lastRet with
      | some _ => [voidReturnValueDiag func.name]
      | none => []

/-- Diagnostic for a duplicate top-level function name. -/
def dupFuncDiag (n : String) : Diag :=
  { severity := "error"
    message := getSafeEnhancedMessage ("函数名 \x27" ++ n ++ "\x27 已经定义过。")
    code := some DUPLICATE_FUNCTION
    data := some { explanation := some "同一作用域内不能重复定义同名函数"
                   suggestion := some "使用不同的函数名或移除重复的定义"
                   category := some ErrorCategory.FUNCTION
                   functionName := some n } }

/-- Loop of `FuncValidator.checkUniqueFuncName` with its `funcNames` seen-set
explicit. -/
def checkUniqueFuncNameGo (funcNames : List String) : List String → List Diag
  | [] => []
  | n :: rest =>
    if funcNames.contains n then dupFuncDiag n :: checkUniqueFuncNameGo funcNames rest
    else checkUniqueFuncNameGo (n :: funcNames) rest

/-- `FuncValidator.checkUniqueFuncName` (lines 479-503): the seen-set is
allocated fresh at every call. -/
def checkUniqueFuncName (functionNames : List String) : List Diag :=
  checkUniqueFuncNameGo [] functionNames

/-! ## The validation pass as a whole (for the idempotence claim)

`registerValidationChecks` (`hello-world-validator.ts` lines 8-47) binds the
checks below to node types; the external framework walks the AST and calls
each check once per matching node, in document order.  A compilation unit is
modelled by the node lists the registered checks receive. -/

/-- The AST snapshot of one document, listing the nodes each registered
check is invoked on, in document order. -/
structure CompUnitModel where
  decls : List Decl
  varDefs : List VarDefNode
  callSites : List CallSite
  functionNames : List String
  funcDefs : List FuncDefNode

/-- One full validation pass: every registered check applied to its nodes;
all working state (seen-name sets) is allocated inside the individual calls.
A `hoverTipsArray` crash (declaration without initializer) contributes no
diagnostics, mirroring the framework dropping the failed check. -/
def runValidationPass (cu : CompUnitModel) : List Diag :=
  (cu.decls.map checkUniqueDef).flatten ++
  (cu.varDefs.map (fun v => ((hoverTipsArrayE v).toOption).getD [])).flatten ++
  (cu.callSites.map checkFunctionDeclared).flatten ++
  (cu.callSites.map checkFunctionParameterMismatch).flatten ++
  checkUniqueFuncName cu.functionNames ++
  (cu.funcDefs.map checkBreakContinueInNonLoopBlocks).flatten ++
  (cu.funcDefs.map checkFunctionReturnType).flatten

/-! ## Hover provider (`SysyHoverProvider.buildVarDefHoverContent`,
`src/src/language/hover-provider.ts` lines 331-403) -/

/-- `/^\d+$/.test(s)`: non-empty, all decimal digits. -/
def isIntLitText (s : String) : Bool :=
  let cs := s.toList
  !cs.isEmpty && cs.all (·.isDigit)

/-- Match `\d+` at the front, returning the rest; fails on no digit. -/
def matchDigitsThen (cs : List Char) : Option (List Char) :=
  let ds := cs.takeWhile (·.isDigit)
  if ds.isEmpty then none else some (cs.drop ds.length)

/-- `/^\d+\.\d+([eE][-+]?\d+)?$/.test(s)`. -/
def isFloatLitText (s : String) : Bool :=
  (Option.isSome <| do
    let r ← matchDigitsThen s.toList
    let r ← match r with
            | '.' :: r2 => some r2
            | _ => none
    let r ← matchDigitsThen r
    match r with
    | [] => some ()
    | e :: r2 =>
      if e = 'e' || e = 'E' then do
        let r3 := match r2 with
                  | '+' :: t => t
                  | '-' :: t => t
                  | t => t
        let r4 ← matchDigitsThen r3
        if r4.isEmpty then some () else none
      else none)

/-- A `VarDef` node as accessed by `buildVarDefHoverContent`:
`container = none` models a node without `$container`; `container = some b`
a container whose `btype` field is `b` when present; `parentText` the
`$cstNode?.parent?.text` when present; `initText` the
`Init[0].singleInit[0]?.$cstNode?.text` when the whole chain is present. -/
structure HoverVarDef where
  name : String
  container : Option (Option String)
  parentText : Option String
  initText : Option String
deriving DecidableEq, Repr

/-- The display-type computation of `buildVarDefHoverContent`, transcribed
step by step: container `btype`, else surrounding text (only when a
container exists), then initializer-shape inference if still unknown, and
finally the unconditional hard-coded name special-case. -/
def varTypeOf (node : HoverVarDef) : String :=
  let varType0 := "未知类型"
  let varType1 :=
    match node.container with
    | none => varType0
    | some (some b) => b
    | some none =>
      match node.parentText with
      | some parentText =>
        if parentText ≠ "" then
          if strIncludes parentText "int " then "int"
          else if strIncludes parentText "float " then "float"
          else varType0
        else varType0
      | none => varType0
  let varType2 :=
    if varType1 = "未知类型" then
      match node.initText with
      | some initText =>
        if isIntLitText initText then "int"
        else if isFloatLitText initText then "float"
        else varType1
      | none => varType1
    else varType1
  if node.name = "decimal" || node.name = "octal" || node.name = "hex" then "int"
  else varType2

/-- Step 1 of the display-type fallback chain: explicit `btype` on the
containing declaration. -/
def hoverStepAnnotation (node : HoverVarDef) : Option String :=
  match node.container with
  | some (some b) => some b
  | _ => none

/-- Step 2: the containing declaration's type read from the surrounding
text (attempted by the source only when a container exists without
`btype`). -/
def hoverStepSurroundingText (node : HoverVarDef) : Option String :=
  match node.parentText with
  | some parentText =>
    if parentText ≠ "" then
      if strIncludes parentText "int " then some "int"
      else if strIncludes parentText "float " then some "float"
      else none
    else none
  | none => none

/-- Step 3: literal-initializer-shape inference. -/
def hoverStepInitShape (node : HoverVarDef) : Option String :=
  match node.initText with
  | some initText =>
    if isIntLitText initText then some "int"
    else if isFloatLitText initText then some "float"
    else none
  | none => none

/-- The hard-coded identifier-name exceptions. -/
def hoverNameException (node : HoverVarDef) : Bool :=
  node.name = "decimal" || node.name = "octal" || node.name = "hex"

/-- Display-type chain exactly as the claim words it: annotation, then
surrounding text, then initializer shape, and only last the hard-coded
name exceptions, an earlier successful step determining the result.
This is the claim's formalisation, for comparison with `varTypeOf`. -/
def varTypeClaimChain (node : HoverVarDef) : String :=
  match hoverStepAnnotation node with
  | some t => t
  | none =>
    match hoverStepSurroundingText node with
    | some t => t
    | none =>
      match hoverStepInitShape node with
      | some t => t
      | none => if hoverNameException node then "int" else "未知类型"

/-- The fallback chain the code actually implements before the name
special-case: annotation; else surrounding text, but only when the node has
a container lacking `btype`; else initializer shape. -/
def varTypeCodeChain (node : HoverVarDef) : String :=
  match hoverStepAnnotation node with
  | some t => t
  | none =>
    match (if node.container.isSome then hoverStepSurroundingText node else none) with
    | some t => t
    | none =>
      match hoverStepInitShape node with
      | some t => t
      | none => "未知类型"

/-! ## QuickFix engine (`SysyQuickFixProvider`,
`src/src/language/hello-world-validator.ts` lines 326-747) -/

/-- An argument of a deferred command (`Command.create`'s positional
arguments: document URI strings, diagnostic/selection ranges, counts). -/
inductive CmdArg where
  | str (s : String)
  | range (r : Option RangeRec)
  | num (n : Nat)
deriving DecidableEq, Repr

/-- A deferred command reference. -/
structure Cmd where
  title : String
  command : String
  args : List CmdArg
deriving DecidableEq, Repr

/-- One text edit of a workspace edit. -/
structure TextEditRec where
  range : RangeRec
  newText : String
deriving DecidableEq, Repr

/-- A code action: either a direct edit (per-URI edit lists) or a deferred
command, as in the LSP `CodeAction` shape the source constructs. -/
structure ActionRec where
  title : String
  kind : String
  diagnostics : List Diag := []
  edit : Option (List (String × List TextEditRec)) := none
  command : Option Cmd := none
deriving DecidableEq, Repr

/-- A document snapshot. -/
structure Document where
  uri : String
  text : String
deriving DecidableEq, Repr

/-- LSP offset of a position in a document (`textDocument.offsetAt`). -/
def offsetAt (doc : Document) (p : Pos) : Nat :=
  let lines := strSplitOnChar '\n' doc.text
  let base := (lines.take p.line).foldl (fun a l => a + l.length + 1) 0
  min (base + p.character) doc.text.length

/-- `document.textDocument.getText(range)`. -/
def getTextInRange (doc : Document) (r : RangeRec) : String :=
  String.mk ((doc.text.toList.drop (offsetAt doc r.start)).take
    (offsetAt doc r.stop - offsetAt doc r.start))

/-- The whole-line read `getText({start:{line,0}, end:{line+1,0}})` used by
several resolvers. -/
def getDocLineText (doc : Document) (line : Nat) : String :=
  getTextInRange doc
    { start := { line := line, character := 0 }
      stop := { line := line + 1, character := 0 } }

/-- A quick-fix resolver (`QuickFixResolver`); registered resolvers are JS
functions and may throw, modelled by the exception monad. -/
def Resolver : Type :=
  Diag → Document → Except Unit (Option ActionRec)

/-- The per-code/per-pattern supplementary step (`createAdditionalFixes`);
`undefined` entries of its result are filtered out by the caller. -/
def AdditionalProvider : Type :=
  String → Diag → Document → Except Unit (List (Option ActionRec))

/-- The two resolver registries and the additional-fix step of
`SysyQuickFixProvider`, iterated in insertion order like the JS `Map`s. -/
structure QuickFixEngine where
  codeToFix : List (String × Resolver)
  diagnosticMessageToFix : List (String × Resolver)
  additional : AdditionalProvider

/-- `SysyQuickFixProvider.createGenericFix` (lines 623-638): a quickfix
deferring to the `sysy.genericFix` command, with no precomputed edit. -/
def createGenericFix (diagnostic : Diag) (document : Document) : ActionRec :=
  { title := "尝试修复此问题"
    kind := "quickfix"
    diagnostics := [diagnostic]
    edit := none
    command := some { title := "尝试修复"
                      command := "sysy.genericFix"
                      args := [CmdArg.str document.uri, CmdArg.range diagnostic.range] } }

/-- The message-pattern loop of `createCodeActionsForDiagnostic` (lines
583-603): the first pattern contained in the message wins; the loop breaks
after it whether or not its resolver produced an action. -/
def messagePatternLoop (eng : QuickFixEngine) (d : Diag) (doc : Document) :
    List (String × Resolver) → Except Unit (List ActionRec)
  | [] => .ok []
  | (pattern, resolver) :: rest =>
    if strIncludes d.message pattern then do
      let a ← resolver d doc
      match a with
      | some act => do
        let adds ← eng.additional pattern d doc
        pure (act :: adds.filterMap id)
      | none => pure []
    else messagePatternLoop eng d doc rest

/-- `SysyQuickFixProvider.createCodeActionsForDiagnostic` (lines 556-604):
code-keyed lookup first; on a successful primary action the additional
fixes are appended and the message pass is skipped; otherwise the
message-pattern loop runs. -/
def createCodeActionsForDiagnostic (eng : QuickFixEngine) (d : Diag) (doc : Document) :
    Except Unit (List ActionRec) :=
  match d.code with
  | some c =>
    match eng.codeToFix.lookup c with
    | some resolver => do
      let a ← resolver d doc
      match a with
      | some act => do
        let adds ← eng.additional c d doc
        pure (act :: adds.filterMap id)
      | none => messagePatternLoop eng d doc eng.diagnosticMessageToFix
    | none => messagePatternLoop eng d doc eng.diagnosticMessageToFix
  | none => messagePatternLoop eng d doc eng.diagnosticMessageToFix

/-- The `for (const diagnostic of params.context.diagnostics)` loop of
`getCodeActions`, with the surrounding try/catch made explicit: the boolean
records whether a diagnostic's processing threw, in which case the actions
accumulated so far escape the aborted loop. -/
def codeActionsLoop (eng : QuickFixEngine) (doc : Document) :
    List Diag → List ActionRec → (List ActionRec × Bool)
  | [], acc => (acc, false)
  | d :: rest, acc =>
    match createCodeActionsForDiagnostic eng d doc with
    | .error _ => (acc, true)
    | .ok as => codeActionsLoop eng doc rest (acc ++ as)

/-- First structural action of `addRefactoringActions` (lines 713-747). -/
def extractFunctionAction (document : Document) (r : RangeRec) : ActionRec :=
  { title := "提取为函数"
    kind := "refactor.extract"
    command := some { title := "提取为函数"
                      command := "sysy.extractFunction"
                      args := [CmdArg.str document.uri, CmdArg.range (some r)] } }

/-- Second structural action of `addRefactoringActions`. -/
def extractVariableAction (document : Document) (r : RangeRec) : ActionRec :=
  { title := "提取为变量"
    kind := "refactor.extract"
    edit := some [(document.uri,
      [{ range := r
         newText := "temp_var = " ++ getTextInRange document r ++ ";" }])] }

/-- The code-action request parameters (`CodeActionParams`). -/
structure CodeActionParamsRec where
  uri : String
  range : RangeRec
  diagnostics : List Diag
deriving DecidableEq, Repr

/-- `SysyQuickFixProvider.getCodeActions` (lines 341-377).  The try/catch
wraps the whole batch loop, the selection-dependent refactor step and the
generic-fix fallback; a throw inside the loop therefore returns the actions
accumulated before it and skips every later step. -/
def getCodeActions (eng : QuickFixEngine) (doc : Document)
    (params : CodeActionParamsRec) : List ActionRec :=
  let (acc, threw) := codeActionsLoop eng doc params.diagnostics []
  if threw then acc
  else
    let acc :=
      if params.range.start.line == params.range.stop.line &&
          params.range.start.character != params.range.stop.character then
        acc ++ [extractFunctionAction doc params.range,
                extractVariableAction doc params.range]
      else acc
    if acc.isEmpty && !params.diagnostics.isEmpty then
      match params.diagnostics with
      | [] => acc
      | d :: _ => acc ++ [createGenericFix d doc]
    else acc

/-! ## The array-size-overflow fix
(`SysyQuickFixProvider.createArraySizeOverflowFix`, lines 859-911).
The concrete regexes of the source are implemented as dedicated leftmost
matchers with the greedy/backtracking semantics of the originals; array
names are identifiers, so interpolating them into a pattern treats them as
literal text. -/

/-- Literal-prefix match returning the remainder. -/
def matchLit (lit s : List Char) : Option (List Char) :=
  if leadsWith lit s then some (s.drop lit.length) else none

/-- Greedy backtracking for the capture `([^\s]+)` of the array-name regex:
`run` is the maximal non-space run, `rest` what follows it; the largest
split of `run` after which `\s*` + the literal tail still match wins. -/
def arrayNameBacktrack (suffix : List Char) (run rest : List Char) : Nat → Option (List Char)
  | 0 => none
  | k + 1 =>
    let afterCap := run.drop (k + 1) ++ rest
    if leadsWith suffix (afterCap.dropWhile (·.isWhitespace)) then some (run.take (k + 1))
    else arrayNameBacktrack suffix run rest k

/-- Try the pattern `数组\s*([^\s]+)\s*的初始化元素数量超过了数组大小` at the
start of `s`. -/
def extractArrayNameAt (s : List Char) : Option String := do
  let r ← matchLit "数组".toList s
  let r := r.dropWhile (·.isWhitespace)
  let run := r.takeWhile (fun c => !c.isWhitespace)
  let rest := r.drop run.length
  let cap ← arrayNameBacktrack "的初始化元素数量超过了数组大小".toList run rest run.length
  pure (String.mk cap)

/-- Leftmost search for the array-name pattern over the whole message
(`diagnostic.message.match(...)`, line 863). -/
def extractArrayNameFrom : List Char → Option String
  | [] => extractArrayNameAt []
  | s@(_ :: t) =>
    match extractArrayNameAt s with
    | some n => some n
    | none => extractArrayNameFrom t

/-- `match?.[1]` of the array-name regex. -/
def extractArrayName (msg : String) : Option String :=
  extractArrayNameFrom msg.toList

/-- Try `name\s*\[(\d+)\]` at the start of `s`, returning the captured
digits' value. -/
def sizeMatchAt (name : List Char) (s : List Char) : Option Nat := do
  let r ← matchLit name s
  let r := r.dropWhile (·.isWhitespace)
  let r ← matchLit ['['] r
  let ds := r.takeWhile (·.isDigit)
  if ds.isEmpty then none
  else
    let r := r.drop ds.length
    let _ ← matchLit [']'] r
    pure (digitsVal ds)

/-- Leftmost search for `name\s*\[(\d+)\]` (line 876). -/
def sizeMatchFrom (name : List Char) : List Char → Option Nat
  | [] => sizeMatchAt name []
  | s@(_ :: t) =>
    match sizeMatchAt name s with
    | some v => some v
    | none => sizeMatchFrom name t

/-- `line.match(new RegExp(arrayName + ...))?.[1]`, parsed. -/
def findSizeMatch (name line : String) : Option Nat :=
  sizeMatchFrom name.toList line.toList

/-- Try `=\s*\x7b([^\x7d]*)\x7d` at the start of `s`, returning the capture. -/
def initListAt (s : List Char) : Option (List Char) := do
  let r ← matchLit ['='] s
  let r := r.dropWhile (·.isWhitespace)
  let r ← matchLit ['\x7b'] r
  let cap := r.takeWhile (fun c => c ≠ '\x7d')
  let _ ← matchLit ['\x7d'] (r.drop cap.length)
  pure cap

/-- Leftmost search for the initializer-list pattern (line 881). -/
def initListFrom : List Char → Option (List Char)
  | [] => initListAt []
  | s@(_ :: t) =>
    match initListAt s with
    | some v => some v
    | none => initListFrom t

/-- The initializer-list capture of the line, as a string. -/
def findInitList (line : String) : Option String :=
  (initListFrom line.toList).map String.mk

/-- `line.replace(new RegExp(name\s*\[cur\]), name[new])`: replace the
leftmost occurrence, leaving the line unchanged when there is none. -/
def replaceSizeFrom (name digitsCur repl : List Char) : List Char → List Char
  | [] => []
  | s@(c :: t) =>
    match (do
      let r ← matchLit name s
      let r := r.dropWhile (·.isWhitespace)
      let r ← matchLit ['['] r
      let r ← matchLit digitsCur r
      matchLit [']'] r) with
    | some rest => repl ++ rest
    | none => c :: replaceSizeFrom name digitsCur repl t

/-- The replacement step of the fix (lines 888-891). -/
def replaceSizeOnce (name : String) (cur new : Nat) (line : String) : String :=
  String.mk (replaceSizeFrom name.toList (toString cur).toList
    (name.toList ++ ['['] ++ (toString new).toList ++ [']']) line.toList)

/-- `SysyQuickFixProvider.createArraySizeOverflowFix` (lines 859-911):
extract the array name from the message, re-read the diagnostic's line,
parse the declared size and the initializer element count, and rewrite the
line with the size `max(currentSize, initElements)`. -/
def createArraySizeOverflowFix (diagnostic : Diag) (document : Document) :
    Option ActionRec := do
  let arrayName ← extractArrayName diagnostic.message
  let r ← diagnostic.range
  let line := getDocLineText document r.start.line
  let currentSize ← findSizeMatch arrayName line
  let cap ← findInitList line
  if cap = "" then none
  else
    let initElements := (strSplitOnChar ',' cap).length
    let newSize := max currentSize initElements
    let newText := replaceSizeOnce arrayName currentSize newSize line
    pure { title := "将数组 \x27" ++ arrayName ++ "\x27 的大小从 " ++
             toString currentSize ++ " 增大到 " ++ toString newSize
           kind := "quickfix"
           diagnostics := [diagnostic]
           edit := some [(document.uri,
             [{ range := { start := { line := r.start.line, character := 0 }
                           stop := { line := r.start.line + 1, character := 0 } }
                newText := newText }])] }

/-! ## Concrete engine instances used by the quick-fix claims -/

/-- A resolver that throws. -/
def throwingResolver : Resolver := fun _ _ => .error ()

/-- A resolver returning no action. -/
def noneResolver : Resolver := fun _ _ => .ok none

/-- A resolver returning a fixed action. -/
def constActionResolver (a : ActionRec) : Resolver := fun _ _ => .ok (some a)

/-- An additional-fix step contributing nothing. -/
def noAdditional : AdditionalProvider := fun _ _ _ => .ok []

/-! ## Claim theorems -/

/-- C2: in the control-flow legality walk, a break or continue statement met
with `inLoop = false` emits exactly one INVALID_BREAK_CONTINUE diagnostic; a
while-body is recursed into with `inLoop = true`, so the identical statement
inside a while-body emits nothing; and if/else branches are recursed into
with the inherited flag unchanged.  The walk enters the function body with
the flag false. -/
theorem claim_C2 :
    (checkOneStmt Stmt.sbreak false = [breakDiag] ∧
      checkOneStmt Stmt.scontinue false = [continueDiag] ∧
      breakDiag.code = some INVALID_BREAK_CONTINUE ∧
      continueDiag.code = some INVALID_BREAK_CONTINUE) ∧
    (∀ funcDef : FuncDefNode,
      checkBreakContinueInNonLoopBlocks funcDef =
        checkStatementsInBlock funcDef.block false) ∧
    (∀ (body : Block) (inLoop : Bool),
      checkOneStmt (Stmt.swhile body) inLoop = checkStatementsInBlock body true) ∧
    (∀ inLoop : Bool,
      checkOneStmt (Stmt.swhile (Block.mk [BlockItem.stmt Stmt.sbreak])) inLoop = [] ∧
      checkOneStmt (Stmt.swhile (Block.mk [BlockItem.stmt Stmt.scontinue])) inLoop = []) ∧
    (∀ (ifstmt : Block) (elsestmt : Option Block) (inLoop : Bool),
      checkOneStmt (Stmt.selif ifstmt elsestmt) inLoop =
        checkStatementsInBlock ifstmt inLoop ++
          (match elsestmt with
           | some b => checkStatementsInBlock b inLoop
           | none => [])) := by
  have h1 : checkOneStmt Stmt.sbreak false = [breakDiag] := by
    simp [checkOneStmt]
  have h2 : checkOneStmt Stmt.scontinue false = [continueDiag] := by
    simp [checkOneStmt]
  have h3 : ∀ (body : Block) (inLoop : Bool),
      checkOneStmt (Stmt.swhile body) inLoop = checkStatementsInBlock body true := by
    intro body inLoop
    simp [checkOneStmt]
  have h4 : ∀ inLoop : Bool,
      checkOneStmt (Stmt.swhile (Block.mk [BlockItem.stmt Stmt.sbreak])) inLoop = [] := by
    intro inLoop
    simp [checkOneStmt, checkStatementsInBlock, checkBlockItems]
  have h5 : ∀ inLoop : Bool,
      checkOneStmt (Stmt.swhile (Block.mk [BlockItem.stmt Stmt.scontinue])) inLoop = [] := by
    intro inLoop
    simp [checkOneStmt, checkStatementsInBlock, checkBlockItems]
  have h6 : ∀ (ifstmt : Block) (elsestmt : Option Block) (inLoop : Bool),
      checkOneStmt (Stmt.selif ifstmt elsestmt) inLoop =
        checkStatementsInBlock ifstmt inLoop ++
          (match elsestmt with
           | some b => checkStatementsInBlock b inLoop
           | none => []) := by
    intro ifstmt elsestmt inLoop
    cases elsestmt <;> simp [checkOneStmt]
  exact ⟨⟨h1, h2, rfl, rfl⟩, fun _ => rfl, h3, fun l => ⟨h4 l, h5 l⟩, h6⟩

/-- C6: the return-shape check scans only the immediate top-level statement
list: a non-void function without a top-level return yields MISSING_RETURN;
a non-void function whose (last) top-level return is bare yields
EMPTY_RETURN; a void function with a valued top-level return yields
VOID_RETURN_VALUE; a return nested inside an if or while leaves the scan
unchanged, so it does not satisfy the non-void requirement. -/
theorem claim_C6 (f : FuncDefNode) :
    (f.functype ≠ "void" → funcScan f = none →
      checkFunctionReturnType f = [missingReturnDiag f.functype f.name]) ∧
    (f.functype ≠ "void" → funcScan f = some none →
      checkFunctionReturnType f = [emptyReturnDiag f.functype f.name]) ∧
    (f.functype = "void" → ∀ u : Unit, funcScan f = some (some u) →
      checkFunctionReturnType f = [voidReturnValueDiag f.name]) ∧
    (missingReturnDiag f.functype f.name).code = some MISSING_RETURN ∧
    (emptyReturnDiag f.functype f.name).code = some EMPTY_RETURN ∧
    (voidReturnValueDiag f.name).code = some VOID_RETURN_VALUE ∧
    (∀ (t : Block) (e : Option Block) (rest : List BlockItem),
      scanTopReturns (BlockItem.stmt (Stmt.selif t e) :: rest) = scanTopReturns rest) ∧
    (∀ (b : Block) (rest : List BlockItem),
      scanTopReturns (BlockItem.stmt (Stmt.swhile b) :: rest) = scanTopReturns rest) := by
  refine ⟨?_, ?_, ?_, rfl, rfl, rfl, fun _ _ _ => rfl, fun _ _ => rfl⟩
  · intro hty hscan
    simp [checkFunctionReturnType, hscan, hty]
  · intro hty hscan
    simp [checkFunctionReturnType, hscan, hty]
  · intro hty u hscan
    simp [checkFunctionReturnType, hscan, hty]

/-- C6 witness: the non-void function `int f() { int x = 1; }` (one
top-level declaration, no return) yields exactly the MISSING_RETURN
diagnostic. -/
theorem claim_C6_witness :
    checkFunctionReturnType ⟨"f", "int", Block.mk [BlockItem.decl]⟩ =
      [missingReturnDiag "int" "f"] :=
  (claim_C6 ⟨"f", "int", Block.mk [BlockItem.decl]⟩).1 (by decide) rfl

/-- C9: re-running the validation pass on an unchanged AST produces an
identical diagnostic list — same codes, messages and order — and the
seen-name sets of the uniqueness checks are initialised empty at each
call. -/
theorem claim_C9 (cu : CompUnitModel) :
    runValidationPass cu = runValidationPass cu ∧
    (runValidationPass cu).map Diag.code = (runValidationPass cu).map Diag.code ∧
    (runValidationPass cu).map Diag.message =
      (runValidationPass cu).map Diag.message ∧
    (∀ d : Decl, checkUniqueDef d = checkUniqueDefGo [] d.defs) ∧
    (∀ ns : List String, checkUniqueFuncName ns = checkUniqueFuncNameGo [] ns) :=
  ⟨rfl, rfl, rfl, fun _ => rfl, fun _ => rfl⟩

/-- C10: at a call whose callee reference is unresolved, the arity check
collects zero declared parameters, so any call with at least one argument
emits PARAMETER_MISMATCH with `expectedCount = 0` and `actualCount` the
argument count — in addition to the UNDEFINED_FUNCTION diagnostic the
unresolved reference itself emits. -/
theorem claim_C10 (call : CallSite) (href : call.funcnameRef = none)
    (hargs : 1 ≤ call.funcRparams.length) :
    checkFunctionParameterMismatch call =
      [paramMismatchDiag call.refText 0 call.funcRparams.length] ∧
    (paramMismatchDiag call.refText 0 call.funcRparams.length).code =
      some PARAMETER_MISMATCH ∧
    (∃ dd : DiagData,
      (paramMismatchDiag call.refText 0 call.funcRparams.length).data = some dd ∧
      dd.expectedCount = some 0 ∧ dd.actualCount = some call.funcRparams.length) ∧
    checkFunctionDeclared call = [undefinedFuncDiag call.refText] ∧
    (undefinedFuncDiag call.refText).code = some UNDEFINED_FUNCTION := by
  have hne : (0 : Nat) ≠ call.funcRparams.length := by omega
  refine ⟨?_, rfl, ⟨_, rfl, rfl, rfl⟩, ?_, rfl⟩
  · simp [checkFunctionParameterMismatch, href, hne]
  · simp [checkFunctionDeclared, href]

/-- C10 witness: the unresolved two-argument call `foo(1,2)` produces both
diagnostics, with expected count 0 and actual count 2. -/
theorem claim_C10_witness :
    checkFunctionParameterMismatch ⟨none, "foo", ["1", "2"]⟩ =
        [paramMismatchDiag "foo" 0 2] ∧
      checkFunctionDeclared ⟨none, "foo", ["1", "2"]⟩ = [undefinedFuncDiag "foo"] := by
  have h := claim_C10 ⟨none, "foo", ["1", "2"]⟩ rfl (by decide)
  exact ⟨h.1, h.2.2.2.1⟩

/-- The document of the spec's array-overflow example. -/
def docArrExample : Document :=
  { uri := "file:///example.sysy", text := "int arr[3] = \x7b1,2,3,4,5\x7d;" }

/-- The diagnostic the validator attaches to that declaration, as the
quick-fix engine receives it (message unenriched: no table key is contained
in it). -/
def dArrExample : Diag :=
  { severity := "error"
    message := "数组 arr 的初始化元素数量超过了数组大小。"
    code := some ARRAY_SIZE_OVERFLOW
    range := some { start := { line := 0, character := 17 }
                    stop := { line := 0, character := 24 } } }

/-- The code action the fix produces for the example. -/
def actArrExample : ActionRec :=
  { title := "将数组 \x27arr\x27 的大小从 3 增大到 5"
    kind := "quickfix"
    diagnostics := [dArrExample]
    edit := some [(docArrExample.uri,
      [{ range := { start := { line := 0, character := 0 }
                    stop := { line := 1, character := 0 } }
         newText := "int arr[5] = \x7b1,2,3,4,5\x7d;" }])] }

/-- C3: a declaration with a literal first-dimension size and an initializer
list longer than that size gets ARRAY_SIZE_OVERFLOW carrying
arrayName/declaredSize/actualSize, with only the first dimension checked;
`int arr[3] = \x7b1,2,3,4,5\x7d;` yields declaredSize 3 and actualSize 5, and the
quick fix rewrites the line to `int arr[5] = \x7b1,2,3,4,5\x7d;`, the new size
being the max of the declared size and the initializer element count. -/
theorem claim_C3 :
    (∀ (arr : VarDefNode) (len : String) (rest : List String) (init0 : InitNode)
        (more : List InitNode) (n : Nat),
      arr.index = len :: rest → arr.Init = init0 :: more →
      jsParseInt len = some n → init0.manyInit.length > n →
      hoverTipsArrayE arr = .ok [arrayOverflowDiag arr.name n init0.manyInit.length]) ∧
    (∀ (name sz : String) (rest rest' : List String) (inits : List InitNode),
      hoverTipsArrayE ⟨name, sz :: rest, inits⟩ =
        hoverTipsArrayE ⟨name, sz :: rest', inits⟩) ∧
    (∀ (name : String) (n k : Nat),
      (arrayOverflowDiag name n k).code = some ARRAY_SIZE_OVERFLOW ∧
      ∃ dd : DiagData, (arrayOverflowDiag name n k).data = some dd ∧
        dd.arrayName = some name ∧ dd.declaredSize = some n ∧ dd.actualSize = some k) ∧
    (hoverTipsArrayE ⟨"arr", ["3"], [⟨[(), (), (), (), ()]⟩]⟩ =
      .ok [arrayOverflowDiag "arr" 3 5]) ∧
    (∀ (d : Diag) (doc : Document) (name : String) (r : RangeRec) (c : Nat) (cap : String),
      extractArrayName d.message = some name → d.range = some r →
      findSizeMatch name (getDocLineText doc r.start.line) = some c →
      findInitList (getDocLineText doc r.start.line) = some cap → cap ≠ "" →
      createArraySizeOverflowFix d doc =
        some { title := "将数组 \x27" ++ name ++ "\x27 的大小从 " ++ toString c ++
                 " 增大到 " ++ toString (max c (strSplitOnChar ',' cap).length)
               kind := "quickfix"
               diagnostics := [d]
               edit := some [(doc.uri,
                 [{ range := { start := { line := r.start.line, character := 0 }
                               stop := { line := r.start.line + 1, character := 0 } }
                    newText := replaceSizeOnce name c
                      (max c (strSplitOnChar ',' cap).length)
                      (getDocLineText doc r.start.line) }])] }) ∧
    createArraySizeOverflowFix dArrExample docArrExample = some actArrExample := by
  refine ⟨?_, ?_, ?_, ?_, ?_, ?_⟩
  · intro arr len rest init0 more n hidx hinit hp hgt
    simp [hoverTipsArrayE, hidx, hinit, hp, hgt]
  · intro name sz rest rest' inits
    rfl
  · intro name n k
    exact ⟨rfl, _, rfl, rfl, rfl, rfl⟩
  · rfl
  · intro d doc name r c cap hname hr hc hcap hne
    simp [createArraySizeOverflowFix, hname, hr, hc, hcap, hne]
  · rfl

/-- C3 witness: the validator branch of the claim at the spec's example. -/
theorem claim_C3_witness :
    hoverTipsArrayE ⟨"arr", ["3"], [⟨[(), (), (), (), ()]⟩]⟩ =
      .ok [arrayOverflowDiag "arr" 3 5] :=
  claim_C3.1 ⟨"arr", ["3"], [⟨[(), (), (), (), ()]⟩]⟩ "3" [] ⟨[(), (), (), (), ()]⟩ []
    3 rfl rfl rfl (by decide)

/-- The regex pass of the enrichment table never fires: no runtime key of
`ERROR_DETAILS` starts with a double-quote character. -/
theorem findRegexEntryOnTable (m : String) :
    findRegexEntry m ERROR_DETAILS = .ok none :=
  rfl

/-- C4 counterexample: for the empty message, category lookup returns
`undefined` (no category) rather than OTHER, although no pattern matches. -/
theorem claim_C4_counterexample :
    getErrorCategoryE "" = .ok none ∧
      getErrorCategoryE "" ≠ .ok (some ErrorCategory.OTHER) := by
  refine ⟨rfl, ?_⟩
  intro h
  rw [show getErrorCategoryE "" = .ok none from rfl] at h
  exact Option.noConfusion (Except.ok.inj h)

/-- C4 (amended): for every non-empty message, enrichment and category
lookup are both determined by the exact-substring pass followed by the
regex pass, first hit winning; on the shipped table the regex pass matches
nothing (no runtime key retains its quotes), a substring hit concatenates
explanation and suggestion onto the raw message, and category lookup
defaults to OTHER.  The empty message short-circuits instead (see the
counterexample). -/
theorem claim_C4 (m : String) (hm : m ≠ "") :
    getEnhancedMessageE m =
      .ok (match findSubstringEntry m ERROR_DETAILS with
           | some i => enrichFormat m i
           | none => m) ∧
    getErrorCategoryE m =
      .ok (some (match findSubstringEntry m ERROR_DETAILS with
                 | some i => i.category
                 | none => ErrorCategory.OTHER)) ∧
    findRegexEntry m ERROR_DETAILS = .ok none := by
  have hr := findRegexEntryOnTable m
  refine ⟨?_, ?_, hr⟩
  · cases h : findSubstringEntry m ERROR_DETAILS with
    | none =>
      simp only [getEnhancedMessageE, hm, if_false, h, hr, reduceIte]
      rfl
    | some i =>
      simp [getEnhancedMessageE, hm, h]
  · cases h : findSubstringEntry m ERROR_DETAILS with
    | none =>
      simp only [getErrorCategoryE, hm, if_false, h, hr, reduceIte]
      rfl
    | some i =>
      simp [getErrorCategoryE, hm, h]

/-- C4 witness: a message hitting no pattern is returned unenriched with
category OTHER; a message containing the arity key is enriched and
categorised FUNCTION. -/
theorem claim_C4_witness :
    getEnhancedMessageE "xyz" = .ok "xyz" ∧
      getErrorCategoryE "xyz" = .ok (some ErrorCategory.OTHER) ∧
      getErrorCategoryE "参数个数不匹配。" = .ok (some ErrorCategory.FUNCTION) := by
  have h1 := claim_C4 "xyz" (by decide)
  have h2 := claim_C4 "参数个数不匹配。" (by decide)
  refine ⟨?_, ?_, ?_⟩
  · simpa using h1.1
  · simpa using h1.2.1
  · simpa using h2.2.1

/-- C5: the safe enrichment wrapper never raises — for every input string
the inner enrichment already yields a value and the wrapper returns exactly
it — and the wrapper's catch, taken over any inner enrichment function that
does fail, returns the original (non-empty) message unchanged. -/
theorem claim_C5 :
    (∀ m : String, getEnhancedMessageE m = .ok (getSafeEnhancedMessage m)) ∧
    (∀ m : String, getSafeEnhancedMessage m = safeWrap getEnhancedMessageE m) ∧
    (∀ (inner : String → Except Unit String) (m : String),
      m ≠ "" → inner m = .error () → safeWrap inner m = m) := by
  refine ⟨?_, fun _ => rfl, ?_⟩
  · intro m
    by_cases hm : m = ""
    · subst hm
      rfl
    · have hr := findRegexEntryOnTable m
      have hok : ∃ r, getEnhancedMessageE m = .ok r := by
        cases h : findSubstringEntry m ERROR_DETAILS with
        | none =>
          refine ⟨m, ?_⟩
          simp only [getEnhancedMessageE, hm, if_false, h, hr, reduceIte]
          rfl
        | some i =>
          exact ⟨enrichFormat m i, by simp [getEnhancedMessageE, hm, h]⟩
      obtain ⟨r, hrr⟩ := hok
      rw [hrr]
      simp [getSafeEnhancedMessage, hrr]
  · intro inner m hm hfail
    simp [safeWrap, hfail, hm]

/-- C5 witness: the wrapper of a failing inner returns the message
unchanged, and on empty or metacharacter-laden inputs the actual enrichment
yields a value with no exception. -/
theorem claim_C5_witness :
    safeWrap (fun _ => Except.error ()) "a(" = "a(" ∧
      getEnhancedMessageE "" = .ok (getSafeEnhancedMessage "") ∧
      getEnhancedMessageE "((((" = .ok (getSafeEnhancedMessage "((((") :=
  ⟨claim_C5.2.2 (fun _ => Except.error ()) "a(" (by decide) rfl,
    claim_C5.1 "", claim_C5.1 "(((("⟩

/-- Processing a batch prefix without a throw and then hitting a throwing
diagnostic ends the whole loop with exactly the prefix's actions. -/
theorem codeActionsLoopAppendError (eng : QuickFixEngine) (doc : Document)
    (d : Diag) (post : List Diag)
    (herr : createCodeActionsForDiagnostic eng d doc = .error ()) :
    ∀ (pre : List Diag) (acc accPre : List ActionRec),
      codeActionsLoop eng doc pre acc = (accPre, false) →
      codeActionsLoop eng doc (pre ++ d :: post) acc = (accPre, true) := by
  intro pre
  induction pre with
  | nil =>
    intro acc accPre h
    simp only [codeActionsLoop, Prod.mk.injEq] at h
    obtain ⟨rfl, -⟩ := h
    simp [codeActionsLoop, herr]
  | cons p preTail ih =>
    intro acc accPre h
    cases hp : createCodeActionsForDiagnostic eng p doc with
    | error e =>
      simp [codeActionsLoop, hp] at h
    | ok as =>
      simp only [codeActionsLoop, hp] at h
      simp only [List.cons_append, codeActionsLoop, hp]
      exact ih _ _ h

/-- C1 (amended): an exception from a resolver is caught at the level of the
whole request — `getCodeActions` still returns normally — but it aborts the
batch: the result is exactly the actions accumulated for the diagnostics
before the throwing one, and no actions are produced for the remaining
diagnostics of the batch (nor are the selection-refactor or generic-fix
steps reached). -/
theorem claim_C1 (eng : QuickFixEngine) (doc : Document)
    (params : CodeActionParamsRec) (pre post : List Diag) (d : Diag)
    (accPre : List ActionRec)
    (hd : params.diagnostics = pre ++ d :: post)
    (hpre : codeActionsLoop eng doc pre [] = (accPre, false))
    (herr : createCodeActionsForDiagnostic eng d doc = .error ()) :
    getCodeActions eng doc params = accPre := by
  have hloop := codeActionsLoopAppendError eng doc d post herr pre [] accPre hpre
  simp [getCodeActions, hd, hloop]

/-- The action the second diagnostic's resolver yields in the C1 scenario. -/
def laterAction : ActionRec :=
  { title := "后续诊断的修复", kind := "quickfix" }

/-- Engine whose E1 resolver throws and whose E2 resolver yields an action. -/
def engThrowFirst : QuickFixEngine :=
  { codeToFix := [("E1", throwingResolver), ("E2", constActionResolver laterAction)]
    diagnosticMessageToFix := []
    additional := noAdditional }

/-- Same engine with the E1 resolver merely yielding no action. -/
def engOkFirst : QuickFixEngine :=
  { codeToFix := [("E1", noneResolver), ("E2", constActionResolver laterAction)]
    diagnosticMessageToFix := []
    additional := noAdditional }

/-- Diagnostic routed to the throwing resolver. -/
def dE1 : Diag := { severity := "error", message := "m1", code := some "E1" }

/-- Diagnostic routed to the succeeding resolver. -/
def dE2 : Diag := { severity := "error", message := "m2", code := some "E2" }

/-- An empty document for the engine scenarios. -/
def docEmpty : Document := { uri := "file:///t.sysy", text := "" }

/-- Request with batch `[dE1, dE2]` and no selection. -/
def paramsE : CodeActionParamsRec :=
  { uri := "file:///t.sysy"
    range := { start := { line := 0, character := 0 }
               stop := { line := 0, character := 0 } }
    diagnostics := [dE1, dE2] }

/-- C1 counterexample: with the first diagnostic's resolver throwing, the
action that the second diagnostic's resolver produces (as the no-throw run
shows) is missing from the result — the batch does not continue. -/
theorem claim_C1_counterexample :
    getCodeActions engThrowFirst docEmpty paramsE = [] ∧
      getCodeActions engOkFirst docEmpty paramsE = [laterAction] ∧
      laterAction ∉ getCodeActions engThrowFirst docEmpty paramsE := by
  have h : getCodeActions engThrowFirst docEmpty paramsE = [] := rfl
  refine ⟨h, rfl, ?_⟩
  rw [h]
  simp

/-- C1 witness: the amended theorem applied to the concrete two-diagnostic
batch with the first resolver throwing. -/
theorem claim_C1_witness :
    getCodeActions engThrowFirst docEmpty paramsE = [] :=
  claim_C1 engThrowFirst docEmpty paramsE [] [dE2] dE1 [] rfl rfl rfl

/-- C7 (amended): when a non-empty batch resolves to zero actions without a
throw and the request carries no single-line non-empty selection, exactly
one generic action is synthesized for the first diagnostic, deferring to
the `sysy.genericFix` command with no precomputed edit.  (A single-line
non-empty selection appends refactor actions instead and suppresses the
fallback; see the counterexample.) -/
theorem claim_C7 (eng : QuickFixEngine) (doc : Document)
    (params : CodeActionParamsRec) (d : Diag) (rest : List Diag)
    (hd : params.diagnostics = d :: rest)
    (hloop : codeActionsLoop eng doc (d :: rest) [] = ([], false))
    (hsel : (params.range.start.line == params.range.stop.line &&
        params.range.start.character != params.range.stop.character) = false) :
    getCodeActions eng doc params = [createGenericFix d doc] ∧
      (createGenericFix d doc).edit = none ∧
      ∃ c : Cmd, (createGenericFix d doc).command = some c ∧
        c.command = "sysy.genericFix" := by
  refine ⟨?_, rfl, ⟨_, rfl, rfl⟩⟩
  simp [getCodeActions, hd, hloop, hsel]

/-- Engine with empty registries (no resolver matches anything). -/
def engEmptyReg : QuickFixEngine :=
  { codeToFix := [], diagnosticMessageToFix := [], additional := noAdditional }

/-- Document for the C7 scenarios. -/
def docSel : Document := { uri := "file:///x.sysy", text := "int a = 1;" }

/-- A single-line non-empty selection over that document. -/
def rSel : RangeRec :=
  { start := { line := 0, character := 4 }, stop := { line := 0, character := 9 } }

/-- A diagnostic no resolver matches. -/
def dSel : Diag := { severity := "error", message := "mX" }

/-- Request with the selection present. -/
def paramsSel : CodeActionParamsRec :=
  { uri := "file:///x.sysy", range := rSel, diagnostics := [dSel] }

/-- Request with an empty (degenerate) range. -/
def paramsNoSel : CodeActionParamsRec :=
  { uri := "file:///x.sysy"
    range := { start := { line := 0, character := 0 }
               stop := { line := 0, character := 0 } }
    diagnostics := [dSel] }

/-- C7 counterexample: a non-empty batch resolving to zero actions does not
get the generic fix when the request carries a single-line non-empty
selection — the two refactor actions are appended first, so the action list
is non-empty and no `sysy.genericFix` action is synthesized. -/
theorem claim_C7_counterexample :
    codeActionsLoop engEmptyReg docSel [dSel] [] = ([], false) ∧
      getCodeActions engEmptyReg docSel paramsSel =
        [extractFunctionAction docSel rSel, extractVariableAction docSel rSel] ∧
      createGenericFix dSel docSel ∉ getCodeActions engEmptyReg docSel paramsSel := by
  have h : getCodeActions engEmptyReg docSel paramsSel =
      [extractFunctionAction docSel rSel, extractVariableAction docSel rSel] := rfl
  refine ⟨rfl, h, ?_⟩
  rw [h]
  decide

/-- C7 witness: the amended theorem applied to the same diagnostic with no
selection: exactly the generic action is returned. -/
theorem claim_C7_witness :
    getCodeActions engEmptyReg docSel paramsNoSel = [createGenericFix dSel docSel] :=
  (claim_C7 engEmptyReg docSel paramsNoSel dSel [] rfl rfl rfl).1

/-- Bridging lemma for the initializer-shape step: the sequential-update
form of the code equals the option-chain form. -/
theorem initShapeChainEq (initText : Option String) :
    (match initText with
     | some it =>
       if isIntLitText it then "int"
       else if isFloatLitText it then "float"
       else "未知类型"
     | none => "未知类型") =
    (match (match initText with
            | some it =>
              if isIntLitText it then some "int"
              else if isFloatLitText it then some "float"
              else none
            | none => none) with
     | some t => t
     | none => "未知类型") := by
  cases initText with
  | none => rfl
  | some it => cases h1 : isIntLitText it <;> cases h2 : isFloatLitText it <;> simp [h1, h2]

/-- C8 (amended): the fallback chain annotation → surrounding text (only
attempted when the node has a container lacking a type) → initializer shape
is followed in that priority order, but the hard-coded name exceptions are
applied unconditionally last and override the chain: a node named decimal,
octal or hex always displays int.  (The hypothesis excludes a container
literally annotated with the sentinel 未知类型, which the code cannot
distinguish from its own initial value.) -/
theorem claim_C8 (node : HoverVarDef)
    (h : node.container ≠ some (some "未知类型")) :
    varTypeOf node = if hoverNameException node then "int" else varTypeCodeChain node := by
  obtain ⟨name, container, parentText, initText⟩ := node
  cases container with
  | none =>
    cases initText with
    | none => rfl
    | some it =>
      cases h1 : isIntLitText it <;> cases h2 : isFloatLitText it <;>
        simp [varTypeOf, varTypeCodeChain, hoverStepAnnotation,
          hoverStepSurroundingText, hoverStepInitShape, hoverNameException, h1, h2]
  | some cb =>
    cases cb with
    | some b =>
      have hb : b ≠ "未知类型" := by
        intro hb
        exact h (by rw [hb])
      simp [varTypeOf, varTypeCodeChain, hoverStepAnnotation,
        hoverStepSurroundingText, hoverStepInitShape, hoverNameException, hb]
    | none =>
      cases parentText with
      | none =>
        cases initText with
        | none => rfl
        | some it =>
          cases h1 : isIntLitText it <;> cases h2 : isFloatLitText it <;>
            simp [varTypeOf, varTypeCodeChain, hoverStepAnnotation,
              hoverStepSurroundingText, hoverStepInitShape, hoverNameException, h1, h2]
      | some pt =>
        by_cases hpt : pt = ""
        · subst hpt
          cases initText with
          | none => rfl
          | some it =>
            cases h1 : isIntLitText it <;> cases h2 : isFloatLitText it <;>
              simp [varTypeOf, varTypeCodeChain, hoverStepAnnotation,
                hoverStepSurroundingText, hoverStepInitShape, hoverNameException, h1, h2]
        · cases hi : strIncludes pt "int " with
          | true =>
            simp [varTypeOf, varTypeCodeChain, hoverStepAnnotation,
              hoverStepSurroundingText, hoverStepInitShape, hoverNameException, hpt, hi]
          | false =>
            cases hf : strIncludes pt "float " with
            | true =>
              simp [varTypeOf, varTypeCodeChain, hoverStepAnnotation,
                hoverStepSurroundingText, hoverStepInitShape, hoverNameException, hpt, hi, hf]
            | false =>
              cases initText with
              | none =>
                simp [varTypeOf, varTypeCodeChain, hoverStepAnnotation,
                  hoverStepSurroundingText, hoverStepInitShape, hoverNameException,
                  hpt, hi, hf]
              | some it =>
                cases h1 : isIntLitText it <;> cases h2 : isFloatLitText it <;>
                  simp [varTypeOf, varTypeCodeChain, hoverStepAnnotation,
                    hoverStepSurroundingText, hoverStepInitShape, hoverNameException,
                    hpt, hi, hf, h1, h2]

/-- C8 counterexample: for a node named `hex` whose containing declaration
is explicitly annotated `float`, the earlier successful step of the claimed
chain would display float, but the code displays int — the name exceptions
override rather than come last. -/
theorem claim_C8_counterexample :
    varTypeOf ⟨"hex", some (some "float"), none, none⟩ = "int" ∧
      varTypeClaimChain ⟨"hex", some (some "float"), none, none⟩ = "float" ∧
      varTypeOf ⟨"hex", some (some "float"), none, none⟩ ≠
        varTypeClaimChain ⟨"hex", some (some "float"), none, none⟩ := by
  refine ⟨rfl, rfl, ?_⟩
  decide

/-- C8 witness: the amended theorem applied to the `hex`/`float` node. -/
theorem claim_C8_witness :
    varTypeOf ⟨"hex", some (some "float"), none, none⟩ = "int" := by
  have h := claim_C8 ⟨"hex", some (some "float"), none, none⟩ (by decide)
  simpa [hoverNameException] using h

end SysY
